import Mathlib

/-!
Verification of the assignment-recommendation engine of the
auto-assign-tickets repository.

The development shallowly embeds the Python sources:

* `src/data/storage.py`   — workload tracking, assignment persistence
* `src/core/matcher.py`   — candidate filtering and shift checking
* `src/core/scorer.py`    — the four sub-scores and the ranking
* `src/agents/assignment_agent.py` — orchestration and fallbacks

Conventions of the embedding:

* pandas `DataFrame`s become lists of structures; a `NaN` cell becomes
  `Option.none`.
* Times are Indian-Standard-Time wall-clock values (Asia/Kolkata has a
  fixed UTC offset and no daylight saving, so `astimezone`/`localize`
  are order-preserving bijections onto wall-clock instants).  An
  instant is `Int` seconds since an arbitrary epoch midnight; a
  time-of-day is `Nat` seconds since midnight; a calendar date is the
  `Int` day index, so the instant at date `d` and time-of-day `s` is
  `d * 86400 + s`.  The ambient `datetime.now()` date used by
  `Matcher._check_shift_time` is passed explicitly as a `today`
  parameter.
* Excel files become explicit state (`StorageState`) threaded through
  the storage operations; ServiceNow is modelled as disabled (the
  default configuration), so all operations take their Excel fallback
  path.
* The optional LLM reasoner is a function parameter; `none` models the
  `reasoner is None` fallback configuration.
-/

/-- ASCII lower-casing of one character (string helpers are written
over `List Char` with structural recursion so that the kernel can
evaluate them on concrete roster data). -/
def lowerChar (c : Char) : Char :=
  if 65 ≤ c.toNat ∧ c.toNat ≤ 90 then Char.ofNat (c.toNat + 32) else c

/-- ASCII upper-casing of one character. -/
def upperChar (c : Char) : Char :=
  if 97 ≤ c.toNat ∧ c.toNat ≤ 122 then Char.ofNat (c.toNat - 32) else c

/-- Python `str.lower` (ASCII case folding, which covers the roster data). -/
def lowerChars (l : List Char) : List Char := l.map lowerChar

/-- Python `str.upper`. -/
def upperChars (l : List Char) : List Char := l.map upperChar

/-- Whitespace as stripped by Python `str.strip` on this data. -/
def isSpaceChar (c : Char) : Bool :=
  c == ' ' || c == '\t' || c == '\n' || c == '\r'

/-- Python `str.strip`. -/
def trimChars (l : List Char) : List Char :=
  ((l.dropWhile isSpaceChar).reverse.dropWhile isSpaceChar).reverse

/-- Accumulator for `splitOnChar`. -/
def splitOnCharAux (sep : Char) : List Char → List Char → List (List Char)
  | [], acc => [acc.reverse]
  | c :: t, acc =>
    if c == sep then acc.reverse :: splitOnCharAux sep t []
    else splitOnCharAux sep t (c :: acc)

/-- Python `str.split(sep)` for a one-character separator. -/
def splitOnChar (sep : Char) (l : List Char) : List (List Char) :=
  splitOnCharAux sep l []

/-- Does the first list start with the second? -/
def startsWithChars : List Char → List Char → Bool
  | _, [] => true
  | [], _ :: _ => false
  | a :: as, b :: bs => a == b && startsWithChars as bs

/-- Does `hay` contain `pat` as a contiguous run?  (Python `pat in hay`.) -/
def hasSubstrChars (pat : List Char) : List Char → Bool
  | [] => startsWithChars [] pat
  | h :: t => startsWithChars (h :: t) pat || hasSubstrChars pat t

/-- An ASCII decimal digit. -/
def isDigitChar (c : Char) : Bool := 48 ≤ c.toNat && c.toNat ≤ 57

/-- Parse exactly two decimal digits. -/
def twoDigits : List Char → Option Nat
  | [a, b] =>
    if isDigitChar a && isDigitChar b then
      some ((a.toNat - 48) * 10 + (b.toNat - 48))
    else none
  | _ => none

/-- Python `datetime.time.fromisoformat(s[:8])` as used by
`Matcher._check_shift_time`: accepts zero-padded `HH:MM:SS` or `HH:MM`
(the first eight characters of the cell), returning seconds since
midnight; any other shape raises `ValueError`, modelled as `none`. -/
def parseTimeOfDay (s : String) : Option Nat :=
  match splitOnChar ':' (s.data.take 8) with
  | [h, m] => do
    let hv ← twoDigits h
    let mv ← twoDigits m
    if hv < 24 && mv < 60 then some (hv * 3600 + mv * 60) else none
  | [h, m, sec] => do
    let hv ← twoDigits h
    let mv ← twoDigits m
    let sv ← twoDigits sec
    if hv < 24 && mv < 60 && sv < 60 then some (hv * 3600 + mv * 60 + sv)
    else none
  | _ => none

/-- One roster row (`Config.ROSTER_COLS`); `none` models a `NaN` cell. -/
structure Person where
  user_id : String
  skills_csv : Option String := none
  shift_start : Option String := none
  shift_end : Option String := none
  on_call : String := "No"
  max_concurrent : Option Nat := none
deriving DecidableEq, Repr

/-- One incident record.  `opened_at` is the ticket's open instant
already parsed and converted to IST seconds (`none` models a missing or
empty `opened_at`); `priority = none` models a missing key (Python
`incident.get('priority', 'P3')`). -/
structure Incident where
  short_description : String := ""
  category : String := ""
  subcategory : String := ""
  priority : Option String := none
  opened_at : Option Int := none
deriving DecidableEq, Repr

/-- One row of `outputs/workload_tracking.xlsx` (audit-only columns
`incident_short_desc`, `priority`, `assigned_at` are omitted: no claim
reads them). -/
structure WorkloadRow where
  assignment_id : String
  user_id : String
  status : String
  closed_at : Option Int := none
  workload_count : Nat := 0
deriving DecidableEq, Repr

/-- One row of `outputs/assignments.xlsx` (audit-only columns omitted). -/
structure AssignmentRecord where
  assignment_id : String
  selected_user_id : String
  status : String
  action : String
deriving DecidableEq, Repr

/-- The two Excel files managed by `Storage`. -/
structure StorageState where
  assignments : List AssignmentRecord := []
  workload : List WorkloadRow := []
deriving DecidableEq, Repr

/-- Count of OPEN rows for a user in a workload-row list. -/
def open_count (rows : List WorkloadRow) (uid : String) : Nat :=
  (rows.filter (fun r => r.user_id == uid && r.status == "OPEN")).length

/-- `Storage.get_user_workload` (ServiceNow disabled, Excel path):
count of rows with this `user_id` and status `OPEN`. -/
def get_user_workload (st : StorageState) (uid : String) : Nat :=
  open_count st.workload uid

/-- `Storage.get_user_max_concurrent`: the first roster row with this
`user_id` (0 when the user is unknown; `none` models a `NaN` cell). -/
def get_user_max_concurrent (roster : List Person) (uid : String) : Option Nat :=
  match roster.find? (fun p => p.user_id == uid) with
  | none => some 0
  | some p => p.max_concurrent

/-- `Storage.is_user_available`: `current_workload < max_concurrent`.
A `NaN` limit compares false in Python (`n < nan` is `False`), so the
`none` branch yields `false`. -/
def is_user_available (st : StorageState) (roster : List Person) (uid : String) : Bool :=
  match get_user_max_concurrent roster uid with
  | none => false
  | some m => get_user_workload st uid < m

/-- The comma-separated skills cell as Python sees it after
`[s.strip().lower() for s in str(...).split(',')]`. -/
def skill_tags (s : String) : List (List Char) :=
  (splitOnChar ',' s.data).map (fun t => lowerChars (trimChars t))

/-- The `matches_skill` closure inside `Matcher.find_candidates`:
`NaN` skills never match; otherwise the (already lowercased, non-empty)
subcategory must be one of the comma-separated skill tags or a
substring of one of them. -/
def matches_skill (subcategory : List Char) (skills_csv : Option String) : Bool :=
  match skills_csv with
  | none => false
  | some s =>
    let skills := skill_tags s
    skills.contains subcategory ||
      skills.any (fun sk => hasSubstrChars subcategory sk)

/-- `Matcher.find_candidates`: skill filter (skipped entirely when the
lowercased subcategory is empty) followed by the capacity filter
(applied only when a storage is configured). -/
def find_candidates (roster : List Person) (incident : Incident)
    (storage : Option StorageState) : List Person :=
  let subcategory := lowerChars incident.subcategory.data
  let cands :=
    if subcategory = [] then roster
    else roster.filter (fun p => matches_skill subcategory p.skills_csv)
  match storage with
  | none => cands
  | some st => cands.filter (fun p => is_user_available st roster p.user_id)

/-- `Matcher.match_skill`.  The scorer calls it with `str(skills_csv)`,
so the `pd.isna` guard never fires there (`str(nan)` is the string
`"nan"`); an empty subcategory returns `false`. -/
def match_skill (incident_subcategory : List Char) (skills_csv : String) : Bool :=
  if incident_subcategory = [] then false
  else
    let skills := skill_tags skills_csv
    let sub := lowerChars incident_subcategory
    skills.any (fun sk => sub == sk || hasSubstrChars sub sk)

/-- Python `str(cell)` on a possibly-`NaN` string cell. -/
def str_of_cell (o : Option String) : String := o.getD "nan"

/-- `Scorer._get_skill_score`: 50 for an exact tag match, 30 for a
substring-only match, 0 otherwise. -/
def get_skill_score (p : Person) (incident : Incident) : Nat :=
  let subcategory := lowerChars incident.subcategory.data
  let s := str_of_cell p.skills_csv
  if match_skill subcategory s then
    if (skill_tags s).contains subcategory then 50 else 30
  else 0

/-- `Matcher.is_on_call`. -/
def is_on_call (p : Person) : Bool :=
  ["yes".data, "true".data, "1".data, "y".data].contains
    (lowerChars p.on_call.data)

/-- `Scorer._get_oncall_score`: `50 + boost`, boost 40/30/20/10 for
P1..P4 and 10 for anything unrecognized. -/
def get_oncall_score (p : Person) (incident : Incident) : Nat :=
  if is_on_call p then
    let priority := upperChars (incident.priority.getD "P3").data
    let boost : Nat :=
      if priority == "P1".data then 40
      else if priority == "P2".data then 30
      else if priority == "P3".data then 20
      else if priority == "P4".data then 10
      else 10
    50 + boost
  else 0

/-- `Matcher._check_shift_time` for an incident instant `t` (IST
seconds) on a run whose `datetime.now(...)` date is `today`.  A `NaN`
boundary, an unparseable boundary, or (unmodelled) a non-string cell
yields `True`; otherwise the boundaries are anchored to *today's* date
and compared against `t` as full datetimes, treating `start < end` as a
same-day window and `start >= end` as an overnight window. -/
def check_shift_time (t : Int) (today : Int) (p : Person) : Bool :=
  match p.shift_start, p.shift_end with
  | some ss, some se =>
    match parseTimeOfDay ss, parseTimeOfDay se with
    | some start_sec, some end_sec =>
      let start_dt : Int := today * 86400 + start_sec
      let end_dt : Int := today * 86400 + end_sec
      if start_sec < end_sec then decide (start_dt ≤ t ∧ t ≤ end_dt)
      else decide (t ≥ start_dt ∨ t ≤ end_dt)
    | _, _ => true
  | _, _ => true

/-- `Scorer._get_shift_score`: 20 when the ticket has no usable
`opened_at`, else 30 inside the shift window and 0 outside. -/
def get_shift_score (p : Person) (incident : Incident) (today : Int) : Nat :=
  match incident.opened_at with
  | none => 20
  | some t => if check_shift_time t today p then 30 else 0

/-- `Scorer._get_availability_score`.  A `NaN` limit scores 10; with a
storage configured and a positive limit the score follows the remaining
capacity ratio `(max_concurrent - current_workload) / max_concurrent`
(exact rational arithmetic; the Python float division is exact on these
small integers against the 0.5/0.25/0 thresholds); a zero limit scores
5; without storage the declared-capacity tiers apply. -/
def get_availability_score (p : Person) (storage : Option StorageState) : Nat :=
  match p.max_concurrent with
  | none => 10
  | some mc =>
    match storage with
    | some st =>
      if 0 < mc then
        let w := get_user_workload st p.user_id
        let ratio : ℚ := ((mc : ℚ) - (w : ℚ)) / (mc : ℚ)
        if ratio ≥ 1 / 2 then 30
        else if ratio ≥ 1 / 4 then 20
        else if ratio > 0 then 10
        else 0
      else 5
    | none =>
      if mc ≥ 10 then 30
      else if mc ≥ 5 then 20
      else if mc ≥ 3 then 10
      else 5

/-- A row of the scored candidate frame: the person plus the four
sub-score columns and their total. -/
structure ScoredCand where
  person : Person
  skill_score : Nat
  oncall_score : Nat
  shift_score : Nat
  availability_score : Nat
  total_score : Nat
deriving DecidableEq, Repr

/-- One row of `Scorer.calculate_scores` before sorting. -/
def score_row (incident : Incident) (storage : Option StorageState)
    (today : Int) (p : Person) : ScoredCand :=
  let sk := get_skill_score p incident
  let oc := get_oncall_score p incident
  let sh := get_shift_score p incident today
  let av := get_availability_score p storage
  ⟨p, sk, oc, sh, av, sk + oc + sh + av⟩

/-- Insert keeping ascending key order, before any equal key. -/
def ord_insert_by (key : α → Nat) (a : α) : List α → List α
  | [] => [a]
  | b :: l => if key a ≤ key b then a :: b :: l else b :: ord_insert_by key a l

/-- Stable ascending insertion sort by a `Nat` key. -/
def sort_asc_by (key : α → Nat) : List α → List α
  | [] => []
  | x :: l => ord_insert_by key x (sort_asc_by key l)

/-- pandas `sort_values(by, ascending=False)` (`nargsort`): the column
is reversed, argsorted ascending and the indexer reversed back.  The
ascending kernel is numpy's default introsort; below its small-array
threshold — frames of at most sixteen rows — it is a plain stable
insertion sort, which is what this model implements, and the double
reversal then preserves tie order.  On larger frames numpy's partition
step permutes tied entries, so the tie order of this model is an
idealization there: statements about tie order are asserted only for
frames of at most sixteen rows. -/
def pandas_sort_desc (key : α → Nat) (l : List α) : List α :=
  (sort_asc_by key l.reverse).reverse

/-- `Scorer.calculate_scores`: compute the four sub-score columns and
their sum, then sort descending by `total_score`. -/
def calculate_scores (incident : Incident) (candidates : List Person)
    (storage : Option StorageState) (today : Int) : List ScoredCand :=
  pandas_sort_desc (fun c => c.total_score)
    (candidates.map (score_row incident storage today))

/-- `Storage._update_workload_tracking`: append one row; an OPEN row
records `current + 1` as its `workload_count` and no close time. -/
def update_workload_tracking (st : StorageState) (aid uid status : String)
    (now : Int) : StorageState :=
  let current := get_user_workload st uid
  let wc := if status == "OPEN" then current + 1 else current
  { st with
    workload := st.workload ++
      [{ assignment_id := aid, user_id := uid, status := status,
         closed_at := if status == "OPEN" then none else some now,
         workload_count := wc }] }

/-- `Storage.save_assignment` (ServiceNow disabled): append an OPEN
record to the assignments file and an OPEN row to the workload file,
unconditionally.  The generated id (timestamp plus user id) is passed
in as `aid`; audit-only columns are omitted. -/
def save_assignment (st : StorageState) (incident : Incident)
    (selected_person action selected_user_id aid : String) (now : Int) :
    StorageState × String :=
  let st1 := { st with
    assignments := st.assignments ++
      [{ assignment_id := aid, selected_user_id := selected_user_id,
         status := "OPEN", action := action }] }
  (update_workload_tracking st1 aid selected_user_id "OPEN" now, aid)

/-- `Storage._close_assignment_excel`: no matching workload row means
failure with the state unchanged; otherwise every matching row in both
files is set to CLOSED (with a fresh `closed_at`) and the call reports
success — whatever status the rows had before. -/
def close_assignment_excel (st : StorageState) (aid : String) (now : Int) :
    Bool × StorageState :=
  if st.workload.any (fun r => r.assignment_id == aid) then
    (true,
     { assignments := st.assignments.map (fun a =>
         if a.assignment_id = aid then { a with status := "CLOSED" } else a),
       workload := st.workload.map (fun r =>
         if r.assignment_id = aid then
           { r with status := "CLOSED", closed_at := some now }
         else r) })
  else (false, st)

/-- `Storage.close_assignment` (ServiceNow disabled): the Excel path. -/
def close_assignment (st : StorageState) (aid : String) (now : Int) :
    Bool × StorageState :=
  close_assignment_excel st aid now

/-- `Matcher.get_availability_message`: whole-roster availability
headcount; with no storage a fixed notice. -/
def get_availability_message (roster : List Person)
    (storage : Option StorageState) : String :=
  match storage with
  | none => "Workload tracking not available"
  | some st =>
    let available_count :=
      (roster.filter (fun p => is_user_available st roster p.user_id)).length
    let total_count := roster.length
    if available_count = 0 then
      "❌ No persons are free to assign. All team members are at max capacity."
    else
      "✅ " ++ toString available_count ++ " of " ++ toString total_count ++
        " team members available for assignment."

/-- One `top{i}` entry of a recommendations dictionary. -/
structure RecEntry where
  name : String
  user_id : String
  recommendation_score : Nat
  primary_reason : String
  reasons : List String
  explanation : String
deriving DecidableEq, Repr

/-- A recommendations dictionary: the ordered `top1..topN` entries plus
the overall analysis. -/
structure Recs where
  entries : List RecEntry
  overall_analysis : String
deriving DecidableEq, Repr

/-- `AssignmentAgent._create_fallback_recommendations`: at most the
first three scored candidates become `top1..top3` entries (the loop
breaks at `i > 3`). -/
def create_fallback_recommendations (candidates : List ScoredCand) : Recs :=
  { entries := (candidates.take 3).enum.map (fun pr =>
      let i := pr.1 + 1
      let c := pr.2
      { name := "User_" ++ c.person.user_id,
        user_id := c.person.user_id,
        recommendation_score := c.total_score,
        primary_reason := "score_based",
        reasons :=
          ["Skill match score: " ++ toString c.skill_score,
           "On-call: " ++ c.person.on_call,
           "Availability score: " ++ toString c.availability_score],
        explanation := "Ranked " ++ toString i ++
          " based on combined scoring algorithm" }),
    overall_analysis := "Recommendations based on algorithmic scoring (LLM unavailable)" }

/-- The two shapes `AssignmentAgent.recommend_assignees` returns: the
error dictionary (keys `error`, `recommendations`, `overall_analysis`)
or the success dictionary (keys `recommendations`, `candidates`,
`agent_method`). -/
inductive RecResult where
  | no_candidates (error : String) (overall_analysis : String) : RecResult
  | success (recommendations : Recs) (candidates : List ScoredCand)
      (agent_method : String) : RecResult
deriving DecidableEq, Repr

/-- `AssignmentAgent._no_candidates_response`: the matcher's
availability message (always non-empty) overrides the generic default
error text. -/
def no_candidates_response (roster : List Person)
    (storage : Option StorageState) : RecResult :=
  RecResult.no_candidates (get_availability_message roster storage)
    "No candidates available based on workload capacity or other constraints."

/-- `AssignmentAgent.recommend_assignees`: find candidates, score them,
take the first `top_k`, then either delegate to the reasoner or build
the score-based fallback. -/
def recommend_assignees (roster : List Person) (incident : Incident)
    (storage : Option StorageState)
    (reasoner : Option (Incident → List ScoredCand → Recs))
    (top_k : Nat) (today : Int) : RecResult :=
  let candidates := find_candidates roster incident storage
  if candidates.length = 0 then no_candidates_response roster storage
  else
    let scored := calculate_scores incident candidates storage today
    let top := scored.take top_k
    match reasoner with
    | some r => RecResult.success (r incident top) top "llm_reasoning"
    | none =>
      RecResult.success (create_fallback_recommendations top) top "score_based"

/-- The `agent_method` field, when present. -/
def RecResult.agent_method : RecResult → Option String
  | .no_candidates _ _ => none
  | .success _ _ m => some m

/-- How many `top{i}` entries the recommendations dictionary holds. -/
def RecResult.num_entries : RecResult → Nat
  | .no_candidates _ _ => 0
  | .success r _ _ => r.entries.length

/-- The ranked entries' user ids, in `top1..topN` order. -/
def RecResult.entry_user_ids : RecResult → List String
  | .no_candidates _ _ => []
  | .success r _ _ => r.entries.map (fun e => e.user_id)

/-- The `error` field, when present. -/
def RecResult.error_message : RecResult → Option String
  | .no_candidates e _ => some e
  | .success _ _ _ => none

/-!  ## General lemmas about the embedded sorting and filtering  -/

theorem ord_insert_perm (key : α → Nat) (a : α) (l : List α) :
    (ord_insert_by key a l).Perm (a :: l) := by
  induction l with
  | nil => simp [ord_insert_by]
  | cons b t ih =>
    simp only [ord_insert_by]
    split
    · exact List.Perm.refl _
    · exact (ih.cons b).trans (List.Perm.swap a b t)

theorem sort_asc_perm (key : α → Nat) (l : List α) :
    (sort_asc_by key l).Perm l := by
  induction l with
  | nil => simp [sort_asc_by]
  | cons x t ih =>
    exact (ord_insert_perm key x (sort_asc_by key t)).trans (ih.cons x)

theorem pandas_sort_desc_perm (key : α → Nat) (l : List α) :
    (pandas_sort_desc key l).Perm l :=
  (List.reverse_perm _).trans
    ((sort_asc_perm key l.reverse).trans (List.reverse_perm l))

theorem pandas_sort_desc_length (key : α → Nat) (l : List α) :
    (pandas_sort_desc key l).length = l.length :=
  (pandas_sort_desc_perm key l).length_eq

theorem pairwise_ord_insert (key : α → Nat) (a : α) (l : List α)
    (h : l.Pairwise (fun x y => key x ≤ key y)) :
    (ord_insert_by key a l).Pairwise (fun x y => key x ≤ key y) := by
  induction l with
  | nil => simp [ord_insert_by]
  | cons b t ih =>
    rcases List.pairwise_cons.1 h with ⟨hb, ht⟩
    simp only [ord_insert_by]
    split
    · rename_i hab
      refine List.Pairwise.cons ?_ h
      intro c hc
      rcases List.mem_cons.1 hc with rfl | hc
      · exact hab
      · exact le_trans hab (hb c hc)
    · rename_i hab
      refine List.Pairwise.cons ?_ (ih ht)
      intro c hc
      have hc2 : c = a ∨ c ∈ t := by
        simpa using (ord_insert_perm key a t).mem_iff.1 hc
      rcases hc2 with rfl | hc2
      · omega
      · exact hb c hc2

theorem pairwise_sort_asc (key : α → Nat) (l : List α) :
    (sort_asc_by key l).Pairwise (fun x y => key x ≤ key y) := by
  induction l with
  | nil => simp [sort_asc_by]
  | cons x t ih => exact pairwise_ord_insert key x (sort_asc_by key t) ih

theorem pairwise_pandas_desc (key : α → Nat) (l : List α) :
    (pandas_sort_desc key l).Pairwise (fun x y => key y ≤ key x) := by
  unfold pandas_sort_desc
  rw [List.pairwise_reverse]
  exact pairwise_sort_asc key l.reverse

theorem filter_ord_insert (key : α → Nat) (v : Nat) (a : α) (l : List α) :
    (ord_insert_by key a l).filter (fun c => key c == v) =
      if key a == v then a :: l.filter (fun c => key c == v)
      else l.filter (fun c => key c == v) := by
  induction l with
  | nil =>
    cases h : (key a == v) <;> simp [ord_insert_by, List.filter, h]
  | cons b t ih =>
    simp only [ord_insert_by]
    split
    · rename_i hab
      simp only [List.filter_cons]
    · rename_i hab
      simp only [List.filter_cons, ih]
      cases ha : (key a == v) <;> cases hb : (key b == v)
      · simp [ha, hb]
      · simp [ha, hb]
      · simp [ha, hb]
      · have h1 : key a = v := by simpa using ha
        have h2 : key b = v := by simpa using hb
        exact absurd (le_of_eq (h1.trans h2.symm)) hab

theorem filter_sort_asc (key : α → Nat) (v : Nat) (l : List α) :
    (sort_asc_by key l).filter (fun c => key c == v) =
      l.filter (fun c => key c == v) := by
  induction l with
  | nil => rfl
  | cons x t ih =>
    simp only [sort_asc_by, filter_ord_insert, ih, List.filter_cons]

theorem filter_pandas_desc (key : α → Nat) (v : Nat) (l : List α) :
    (pandas_sort_desc key l).filter (fun c => key c == v) =
      l.filter (fun c => key c == v) := by
  unfold pandas_sort_desc
  rw [List.filter_reverse, filter_sort_asc, List.filter_reverse,
    List.reverse_reverse]

/-- `is_user_available` unfolded to the capacity inequality. -/
theorem is_user_available_iff (st : StorageState) (roster : List Person)
    (uid : String) :
    is_user_available st roster uid = true ↔
      ∃ m, get_user_max_concurrent roster uid = some m ∧
        get_user_workload st uid < m := by
  unfold is_user_available
  cases h : get_user_max_concurrent roster uid with
  | none => simp
  | some m => simp [decide_eq_true_iff]

/-- Re-closing rows that are already CLOSED leaves every user's open
count unchanged. -/
theorem open_count_map_close (rows : List WorkloadRow) (aid : String)
    (now : Int) (u : String)
    (h : ∀ r ∈ rows, r.assignment_id = aid → r.status = "CLOSED") :
    open_count (rows.map (fun r =>
        if r.assignment_id = aid then
          { r with status := "CLOSED", closed_at := some now }
        else r)) u = open_count rows u := by
  induction rows with
  | nil => rfl
  | cons r t ih =>
    have ht : ∀ x ∈ t, x.assignment_id = aid → x.status = "CLOSED" :=
      fun x hx => h x (List.mem_cons_of_mem _ hx)
    have ihx := ih ht
    simp only [open_count] at ihx
    by_cases hr : r.assignment_id = aid
    · have hst : r.status = "CLOSED" := h r (List.mem_cons_self _ _) hr
      simp [open_count, List.filter_cons, if_pos hr, hst, ihx]
    · cases hp : (r.user_id == u && r.status == "OPEN") <;>
        simp [open_count, List.filter_cons, if_neg hr, hp, ihx]

/-- C3: every person returned by `find_candidates` passes the skill
predicate (the ticket's lowercased subcategory is empty, so the skill
filter was skipped, or it equals / is a substring of one of the
person's skill tags) and, whenever a storage is configured, has strict
remaining capacity: open count < max_concurrent. -/
theorem find_candidates_sound (roster : List Person) (incident : Incident)
    (storage : Option StorageState) (p : Person)
    (hp : p ∈ find_candidates roster incident storage) :
    (lowerChars incident.subcategory.data = [] ∨
      matches_skill (lowerChars incident.subcategory.data) p.skills_csv = true)
    ∧ (∀ st, storage = some st →
        ∃ m, get_user_max_concurrent roster p.user_id = some m ∧
          get_user_workload st p.user_id < m) := by
  simp only [find_candidates] at hp
  have skill_of :
      ∀ q : Person,
        q ∈ (if lowerChars incident.subcategory.data = [] then roster
          else roster.filter (fun x =>
            matches_skill (lowerChars incident.subcategory.data) x.skills_csv)) →
        (lowerChars incident.subcategory.data = [] ∨
          matches_skill (lowerChars incident.subcategory.data) q.skills_csv = true) := by
    intro q hq
    by_cases hsub : lowerChars incident.subcategory.data = []
    · exact Or.inl hsub
    · rw [if_neg hsub] at hq
      exact Or.inr (List.mem_filter.1 hq).2
  cases storage with
  | none =>
    exact ⟨skill_of p hp, fun st hst => Option.noConfusion hst⟩
  | some st =>
    have hp2 := List.mem_filter.1 hp
    refine ⟨skill_of p hp2.1, ?_⟩
    intro st' hst'
    cases hst'
    exact (is_user_available_iff st roster p.user_id).1 hp2.2

/-- C3 witness: on a one-person roster with skill `network`, limit 2
and one open assignment, the returned candidate satisfies both
predicates. -/
theorem find_candidates_sound_check :
    (lowerChars ({ subcategory := "network" : Incident }).subcategory.data = [] ∨
      matches_skill (lowerChars ({ subcategory := "network" : Incident }).subcategory.data)
        (some "network, database") = true)
    ∧ ∃ m,
        get_user_max_concurrent
          [{ user_id := "A", skills_csv := some "network, database",
             max_concurrent := some 2 }] "A" = some m ∧
        get_user_workload
          { workload := [⟨"T1", "A", "OPEN", none, 1⟩] } "A" < m := by
  have h := find_candidates_sound
    [{ user_id := "A", skills_csv := some "network, database",
       max_concurrent := some 2 }]
    { subcategory := "network" }
    (some { workload := [⟨"T1", "A", "OPEN", none, 1⟩] })
    { user_id := "A", skills_csv := some "network, database",
      max_concurrent := some 2 }
    (by decide)
  exact ⟨h.1, h.2 _ rfl⟩

/-- C1: `Storage.save_assignment` never checks capacity.  On a roster
where user `U1` has `max_concurrent = 1` and already one OPEN
assignment (`is_user_available` is false), committing another
assignment to `U1` succeeds and raises the open count to 2, violating
`workload(person) ≤ max_concurrent` at creation time: the invariant is
not prevented at commit. -/
theorem save_assignment_capacity_unchecked :
    is_user_available
        { assignments := [⟨"A0", "U1", "OPEN", "Accept"⟩],
          workload := [⟨"A0", "U1", "OPEN", none, 1⟩] }
        [{ user_id := "U1", skills_csv := some "network",
           max_concurrent := some 1 }] "U1" = false
    ∧ get_user_max_concurrent
        [{ user_id := "U1", skills_csv := some "network",
           max_concurrent := some 1 }] "U1" = some 1
    ∧ get_user_workload
        (save_assignment
          { assignments := [⟨"A0", "U1", "OPEN", "Accept"⟩],
            workload := [⟨"A0", "U1", "OPEN", none, 1⟩] }
          { subcategory := "network" } "User_U1" "Accept" "U1" "A1" 0).1
        "U1" = 2 := by
  refine ⟨by decide, by decide, by decide⟩

/-- C7: `close_assignment` on an id whose rows are already CLOSED
returns `true`, not the failure the claim requires. -/
theorem close_assignment_reclose_returns_true :
    (close_assignment
        { assignments := [⟨"A1", "U1", "CLOSED", "Accept"⟩],
          workload := [⟨"A1", "U1", "CLOSED", some 5, 1⟩] }
        "A1" 99).1 = true := by decide

/-- C7 (amended): closing an unknown assignment id returns `false`
with the state unchanged (a no-op reporting failure, no exception),
and re-closing an already-closed id — though it reports `true` —
changes no user's open-workload count (no double decrement). -/
theorem close_assignment_unknown_and_reclose (st : StorageState)
    (aid : String) (now : Int) :
    ((∀ r ∈ st.workload, r.assignment_id ≠ aid) →
        close_assignment st aid now = (false, st))
    ∧ ((∀ r ∈ st.workload, r.assignment_id = aid → r.status = "CLOSED") →
        ∀ u, get_user_workload (close_assignment st aid now).2 u =
          get_user_workload st u) := by
  constructor
  · intro h
    unfold close_assignment close_assignment_excel
    rw [if_neg]
    intro hc
    rcases List.any_eq_true.1 hc with ⟨r, hr, he⟩
    exact h r hr (by simpa using he)
  · intro h u
    unfold close_assignment close_assignment_excel
    by_cases hc : st.workload.any (fun r => r.assignment_id == aid) = true
    · rw [if_pos hc]
      exact open_count_map_close st.workload aid now u h
    · rw [if_neg hc]

/-- C7 witness: a concrete state where an unknown id fails without
touching the state and a re-close of `A1` leaves user `U`'s open count
unchanged. -/
theorem close_assignment_unknown_and_reclose_check :
    close_assignment
        { workload := [⟨"A1", "U", "CLOSED", some 1, 1⟩,
                       ⟨"A2", "U", "OPEN", none, 1⟩] } "ZZZ" 5 =
      (false,
        { workload := [⟨"A1", "U", "CLOSED", some 1, 1⟩,
                       ⟨"A2", "U", "OPEN", none, 1⟩] })
    ∧ get_user_workload
        (close_assignment
          { workload := [⟨"A1", "U", "CLOSED", some 1, 1⟩] } "A1" 7).2 "U" =
      get_user_workload { workload := [⟨"A1", "U", "CLOSED", some 1, 1⟩] } "U" := by
  refine ⟨?_, ?_⟩
  · exact (close_assignment_unknown_and_reclose
      { workload := [⟨"A1", "U", "CLOSED", some 1, 1⟩,
                     ⟨"A2", "U", "OPEN", none, 1⟩] } "ZZZ" 5).1 (by decide)
  · exact (close_assignment_unknown_and_reclose
      { workload := [⟨"A1", "U", "CLOSED", some 1, 1⟩] } "A1" 7).2 (by decide) "U"

/-- C6: a candidate whose `max_concurrent` cell is missing (`NaN`)
gets availability score 10, not the 5 the claim states (the code
returns 10 for "unknown capacity" before ever reaching the
zero-capacity branch), with or without workload tracking. -/
theorem availability_missing_capacity_scores_ten :
    get_availability_score { user_id := "U" } (some {}) = 10
    ∧ get_availability_score { user_id := "U" } none = 10
    ∧ (10 : Nat) ≠ 5 := by
  refine ⟨by decide, by decide, by decide⟩

/-- C6 (amended): a missing `max_concurrent` scores 10; a zero limit
(with workload tracking) scores 5; a positive limit `m` with tracking
scores by the remaining-capacity ratio, which over the exact rationals
is 30 iff `2·w ≤ m`, 20 iff not that but `4·w ≤ 3·m`, 10 iff merely
`w < m`, else 0, where `w` is the user's open count. -/
theorem availability_score_cases (p : Person) (st : StorageState) :
    (p.max_concurrent = none →
      ∀ s : Option StorageState, get_availability_score p s = 10)
    ∧ (p.max_concurrent = some 0 → get_availability_score p (some st) = 5)
    ∧ (∀ m, p.max_concurrent = some m → 0 < m →
        get_availability_score p (some st) =
          (if 2 * get_user_workload st p.user_id ≤ m then 30
           else if 4 * get_user_workload st p.user_id ≤ 3 * m then 20
           else if get_user_workload st p.user_id < m then 10
           else 0)) := by
  refine ⟨?_, ?_, ?_⟩
  · intro h s
    cases s <;> simp [get_availability_score, h]
  · intro h
    simp [get_availability_score, h]
  · intro m hm hpos
    simp only [get_availability_score, hm]
    rw [if_pos hpos]
    set w := get_user_workload st p.user_id with hw
    have hm0 : (0 : ℚ) < (m : ℚ) := by exact_mod_cast hpos
    have h1 : ((m : ℚ) - (w : ℚ)) / (m : ℚ) ≥ 1 / 2 ↔ 2 * w ≤ m := by
      rw [ge_iff_le, le_div_iff₀ hm0]
      constructor
      · intro hq
        have : (2 * w : ℚ) ≤ (m : ℚ) := by linarith
        exact_mod_cast this
      · intro hn
        have : (2 * w : ℚ) ≤ (m : ℚ) := by exact_mod_cast hn
        linarith
    have h2 : ((m : ℚ) - (w : ℚ)) / (m : ℚ) ≥ 1 / 4 ↔ 4 * w ≤ 3 * m := by
      rw [ge_iff_le, le_div_iff₀ hm0]
      constructor
      · intro hq
        have : (4 * w : ℚ) ≤ (3 * m : ℚ) := by linarith
        exact_mod_cast this
      · intro hn
        have : (4 * w : ℚ) ≤ (3 * m : ℚ) := by exact_mod_cast hn
        linarith
    have h3 : ((m : ℚ) - (w : ℚ)) / (m : ℚ) > 0 ↔ w < m := by
      rw [gt_iff_lt, lt_div_iff₀ hm0]
      constructor
      · intro hq
        have : (w : ℚ) < (m : ℚ) := by linarith
        exact_mod_cast this
      · intro hn
        have : (w : ℚ) < (m : ℚ) := by exact_mod_cast hn
        linarith
    simp only [h1, h2, h3]

/-- C6 witness: limit 4 with one open assignment scores 30 (ratio
3/4), and a missing limit scores 10. -/
theorem availability_score_cases_check :
    get_availability_score { user_id := "W", max_concurrent := some 4 }
        (some { workload := [⟨"A", "W", "OPEN", none, 1⟩] }) = 30
    ∧ get_availability_score { user_id := "W" }
        (some { workload := [⟨"A", "W", "OPEN", none, 1⟩] }) = 10 := by
  refine ⟨?_, ?_⟩
  · exact ((availability_score_cases
      { user_id := "W", max_concurrent := some 4 }
      { workload := [⟨"A", "W", "OPEN", none, 1⟩] }).2.2 4 rfl
      (by decide)).trans (by decide)
  · exact (availability_score_cases
      { user_id := "W" }
      { workload := [⟨"A", "W", "OPEN", none, 1⟩] }).1 rfl _

/-- C5: with equal shift boundaries 10:00–10:00 — a non-wrapping
window by the claim's `start ≤ end` reading, containing only 10:00 —
a ticket opened the same day at 12:00 still scores 30, because the
code sends `start = end` through the overnight branch `t ≥ start OR
t ≤ end`, which always holds. -/
theorem shift_equal_bounds_always_in_window :
    get_shift_score
        { user_id := "S", shift_start := some "10:00:00",
          shift_end := some "10:00:00" }
        { opened_at := some 43200 } 0 = 30
    ∧ parseTimeOfDay "10:00:00" = some 36000
    ∧ ¬ (36000 ≤ 43200 ∧ 43200 ≤ (36000 : Nat)) := by
  refine ⟨by decide, by decide, by decide⟩

/-- C5 (amended): for parseable boundaries and a ticket opened at
time-of-day `tod` on the run's current date, a strictly non-wrapping
window `start < end` scores 30 exactly when `start ≤ tod ≤ end`,
and otherwise (`end ≤ start`, taken for wrapped *and* equal
boundaries) scores 30 exactly when `tod ≥ start` or `tod ≤ end`;
tickets dated other than `today` are compared against today's window
and fall outside this characterization. -/
theorem shift_window_semantics (p : Person) (incident : Incident)
    (ss se : String) (s e tod : Nat) (today : Int)
    (hss : p.shift_start = some ss) (hse : p.shift_end = some se)
    (hs : parseTimeOfDay ss = some s) (he : parseTimeOfDay se = some e)
    (hop : incident.opened_at = some (today * 86400 + (tod : Int))) :
    (s < e →
      get_shift_score p incident today =
        if s ≤ tod ∧ tod ≤ e then 30 else 0)
    ∧ (e ≤ s →
      get_shift_score p incident today =
        if s ≤ tod ∨ tod ≤ e then 30 else 0) := by
  unfold get_shift_score check_shift_time
  rw [hop]
  simp only [hss, hse, hs, he]
  constructor
  · intro hlt
    rw [if_pos hlt]
    have hiff : (today * 86400 + (s : Int) ≤ today * 86400 + (tod : Int) ∧
        today * 86400 + (tod : Int) ≤ today * 86400 + (e : Int)) ↔
        (s ≤ tod ∧ tod ≤ e) := by omega
    simp only [decide_eq_true_eq, hiff]
  · intro hge
    rw [if_neg (by omega : ¬ s < e)]
    have hiff : (today * 86400 + (tod : Int) ≥ today * 86400 + (s : Int) ∨
        today * 86400 + (tod : Int) ≤ today * 86400 + (e : Int)) ↔
        (s ≤ tod ∨ tod ≤ e) := by omega
    simp only [decide_eq_true_eq, hiff]

/-- C5 witness: the 22:00–06:00 overnight shift scores 30 for tickets
opened (today) at 23:30 and at 05:00, and 0 for one opened at 12:00. -/
theorem shift_window_examples :
    get_shift_score
        { user_id := "N", shift_start := some "22:00:00",
          shift_end := some "06:00:00" }
        { opened_at := some 84600 } 0 = 30
    ∧ get_shift_score
        { user_id := "N", shift_start := some "22:00:00",
          shift_end := some "06:00:00" }
        { opened_at := some 18000 } 0 = 30
    ∧ get_shift_score
        { user_id := "N", shift_start := some "22:00:00",
          shift_end := some "06:00:00" }
        { opened_at := some 43200 } 0 = 0 := by
  refine ⟨?_, ?_, ?_⟩
  · exact ((shift_window_semantics _ _ "22:00:00" "06:00:00" 79200 21600 84600 0
      rfl rfl (by decide) (by decide) (by norm_num)).2 (by norm_num)).trans
      (by norm_num)
  · exact ((shift_window_semantics _ _ "22:00:00" "06:00:00" 79200 21600 18000 0
      rfl rfl (by decide) (by decide) (by norm_num)).2 (by norm_num)).trans
      (by norm_num)
  · exact ((shift_window_semantics _ _ "22:00:00" "06:00:00" 79200 21600 43200 0
      rfl rfl (by decide) (by decide) (by norm_num)).2 (by norm_num)).trans
      (by norm_num)

/-- C4: every scored candidate's `total_score` is exactly the sum of
the four sub-score columns, and the scorer's output is the input rows
sorted descending by `total_score` (a permutation of them).  Tie order
is guaranteed by the program only on frames of at most sixteen rows —
numpy's insertion-sort regime — where rows of any fixed total keep
their original relative order (their filtered subsequence is
unchanged); the default quicksort gives no such guarantee on larger
frames. -/
theorem calculate_scores_sum_sorted (incident : Incident)
    (candidates : List Person) (storage : Option StorageState) (today : Int) :
    (∀ c ∈ calculate_scores incident candidates storage today,
        c.total_score =
          c.skill_score + c.oncall_score + c.shift_score + c.availability_score)
    ∧ (calculate_scores incident candidates storage today).Pairwise
        (fun a b => b.total_score ≤ a.total_score)
    ∧ (calculate_scores incident candidates storage today).Perm
        (candidates.map (score_row incident storage today))
    ∧ (candidates.length ≤ 16 →
        ∀ v, (calculate_scores incident candidates storage today).filter
            (fun c => c.total_score == v) =
          (candidates.map (score_row incident storage today)).filter
            (fun c => c.total_score == v)) := by
  refine ⟨?_, ?_, ?_, ?_⟩
  · intro c hc
    have hc2 : c ∈ candidates.map (score_row incident storage today) := by
      unfold calculate_scores at hc
      exact (pandas_sort_desc_perm _ _).mem_iff.1 hc
    rcases List.mem_map.1 hc2 with ⟨p, hp, rfl⟩
    rfl
  · unfold calculate_scores
    exact pairwise_pandas_desc _ _
  · unfold calculate_scores
    exact pandas_sort_desc_perm _ _
  · intro _ v
    unfold calculate_scores
    exact filter_pandas_desc _ v _

/-- C4 witness: a two-row frame of identical candidates (tied totals)
keeps its filtered tie group intact, and a concrete row's total is the
sum of its sub-scores. -/
theorem calculate_scores_sum_sorted_check :
    (calculate_scores { subcategory := "net", priority := some "P1" }
        [⟨"A", some "net", none, none, "Yes", some 3⟩,
         ⟨"B", some "net", none, none, "Yes", some 3⟩] none 0).filter
        (fun c => c.total_score == 170) =
      ([⟨"A", some "net", none, none, "Yes", some 3⟩,
        ⟨"B", some "net", none, none, "Yes", some 3⟩].map
        (score_row { subcategory := "net", priority := some "P1" } none 0)).filter
        (fun c => c.total_score == 170)
    ∧ (score_row { subcategory := "net", priority := some "P1" } none 0
        ⟨"A", some "net", none, none, "Yes", some 3⟩).total_score =
      (score_row { subcategory := "net", priority := some "P1" } none 0
        ⟨"A", some "net", none, none, "Yes", some 3⟩).skill_score +
      (score_row { subcategory := "net", priority := some "P1" } none 0
        ⟨"A", some "net", none, none, "Yes", some 3⟩).oncall_score +
      (score_row { subcategory := "net", priority := some "P1" } none 0
        ⟨"A", some "net", none, none, "Yes", some 3⟩).shift_score +
      (score_row { subcategory := "net", priority := some "P1" } none 0
        ⟨"A", some "net", none, none, "Yes", some 3⟩).availability_score := by
  refine ⟨?_, ?_⟩
  · exact (calculate_scores_sum_sorted
      { subcategory := "net", priority := some "P1" }
      [⟨"A", some "net", none, none, "Yes", some 3⟩,
       ⟨"B", some "net", none, none, "Yes", some 3⟩] none 0).2.2.2
      (by decide) 170
  · exact (calculate_scores_sum_sorted
      { subcategory := "net", priority := some "P1" }
      [⟨"A", some "net", none, none, "Yes", some 3⟩,
       ⟨"B", some "net", none, none, "Yes", some 3⟩] none 0).1
      (score_row { subcategory := "net", priority := some "P1" } none 0
        ⟨"A", some "net", none, none, "Yes", some 3⟩) (by decide)

/-- C9: scoring is *not* independent of when the run happens — the
same ticket (opened at noon) and the same one-person roster get
different scored outputs on runs whose current date is day 0 versus
day 1, because the shift window is anchored to the run's date. -/
theorem scorer_date_dependent :
    calculate_scores { subcategory := "net", opened_at := some 43200 }
        [⟨"A", some "net", some "09:00:00", some "18:00:00", "No", some 5⟩]
        none 0 ≠
      calculate_scores { subcategory := "net", opened_at := some 43200 }
        [⟨"A", some "net", some "09:00:00", some "18:00:00", "No", some 5⟩]
        none 1 := by decide

/-- C9 (amended): scoring is deterministic given identical inputs and
an identical current date; and when the ticket has no `opened_at`
(the only input the date can touch) the output does not depend on the
date at all. -/
theorem scorer_deterministic_same_date (incident : Incident)
    (candidates : List Person) (storage : Option StorageState) (d1 d2 : Int) :
    (d1 = d2 →
      calculate_scores incident candidates storage d1 =
        calculate_scores incident candidates storage d2)
    ∧ (incident.opened_at = none →
      calculate_scores incident candidates storage d1 =
        calculate_scores incident candidates storage d2) := by
  constructor
  · intro h
    rw [h]
  · intro h
    unfold calculate_scores
    congr 1
    apply List.map_congr_left
    intro p _
    simp [score_row, get_shift_score, h]

/-- C9 witness: a no-`opened_at` ticket scores identically on day 3
and day 7. -/
theorem scorer_deterministic_check :
    calculate_scores { subcategory := "net" }
        [⟨"A", some "net", none, none, "No", some 5⟩] none 3 =
      calculate_scores { subcategory := "net" }
        [⟨"A", some "net", none, none, "No", some 5⟩] none 7 :=
  (scorer_deterministic_same_date { subcategory := "net" }
    [⟨"A", some "net", none, none, "No", some 5⟩] none 3 7).2 rfl

/-- C2: with four eligible candidates and `top_k = 4`, the fallback
produces only three ranked entries — not `min(top_k, #candidates) = 4`
— because `_create_fallback_recommendations` breaks after `top3`. -/
theorem fallback_caps_at_three :
    (recommend_assignees
        [⟨"A", some "net", none, none, "No", some 5⟩,
         ⟨"B", some "net", none, none, "No", some 5⟩,
         ⟨"C", some "net", none, none, "No", some 5⟩,
         ⟨"D", some "net", none, none, "No", some 5⟩]
        { subcategory := "net" } none none 4 0).num_entries = 3
    ∧ (find_candidates
        [⟨"A", some "net", none, none, "No", some 5⟩,
         ⟨"B", some "net", none, none, "No", some 5⟩,
         ⟨"C", some "net", none, none, "No", some 5⟩,
         ⟨"D", some "net", none, none, "No", some 5⟩]
        { subcategory := "net" } none).length = 4
    ∧ (3 : Nat) ≠ min 4 4 := by
  refine ⟨by decide, by decide, by decide⟩

/-- C2 (amended): with the reasoner disabled and a non-empty candidate
set, `recommend_assignees` reports `agent_method = "score_based"` and
the fallback holds exactly `min(3, min(top_k, #candidates))` ranked
entries whose user ids are the first entries of the Scorer's output
order (truncated at `top_k` and then at the hard cap of three). -/
theorem recommend_fallback_shape (roster : List Person) (incident : Incident)
    (storage : Option StorageState) (top_k : Nat) (today : Int)
    (h : find_candidates roster incident storage ≠ []) :
    (recommend_assignees roster incident storage none top_k today).agent_method =
      some "score_based"
    ∧ (recommend_assignees roster incident storage none top_k today).num_entries =
      min 3 (min top_k (find_candidates roster incident storage).length)
    ∧ (recommend_assignees roster incident storage none top_k today).entry_user_ids =
      (((calculate_scores incident (find_candidates roster incident storage)
          storage today).map (fun c => c.person.user_id)).take top_k).take 3 := by
  have hlen : ¬ (find_candidates roster incident storage).length = 0 := by
    simpa [List.length_eq_zero] using h
  have hsclen : (calculate_scores incident (find_candidates roster incident storage)
      storage today).length = (find_candidates roster incident storage).length := by
    unfold calculate_scores
    rw [pandas_sort_desc_length, List.length_map]
  unfold recommend_assignees
  rw [if_neg hlen]
  refine ⟨rfl, ?_, ?_⟩
  · simp only [RecResult.num_entries, create_fallback_recommendations,
      List.length_map, List.enum_length, List.length_take, hsclen]
  · have hmap : ∀ m : List ScoredCand,
        ((create_fallback_recommendations m).entries).map (fun e => e.user_id) =
          (m.take 3).map (fun c => c.person.user_id) := by
      intro m
      dsimp only [create_fallback_recommendations]
      rw [List.map_map]
      rw [show (m.take 3).map (fun c : ScoredCand => c.person.user_id) =
          ((m.take 3).enum.map Prod.snd).map (fun c : ScoredCand => c.person.user_id) by
        rw [List.enum_map_snd]]
      rw [List.map_map]
      apply List.map_congr_left
      intro pr _
      rfl
    simp only [RecResult.entry_user_ids]
    rw [hmap, List.map_take, List.map_take]

/-- C2 witness: a one-candidate roster with `top_k = 5` yields one
score-based entry, in the scorer's order. -/
theorem recommend_fallback_shape_check :
    (recommend_assignees [⟨"A", some "net", none, none, "No", some 5⟩]
        { subcategory := "net" } none none 5 0).agent_method =
      some "score_based"
    ∧ (recommend_assignees [⟨"A", some "net", none, none, "No", some 5⟩]
        { subcategory := "net" } none none 5 0).num_entries = 1
    ∧ (recommend_assignees [⟨"A", some "net", none, none, "No", some 5⟩]
        { subcategory := "net" } none none 5 0).entry_user_ids = ["A"] := by
  have h := recommend_fallback_shape [⟨"A", some "net", none, none, "No", some 5⟩]
    { subcategory := "net" } none 5 0 (by decide)
  exact ⟨h.1, h.2.1.trans (by decide), h.2.2.trans (by decide)⟩

/-- C10: committing an assignment to `uid` raises exactly `uid`'s open
count by one and nobody else's; `find_candidates` returns rows of the
roster unmodified; and the scorer's output rows carry the input
candidate rows unmodified (as a permutation). -/
theorem save_assignment_frame (st : StorageState) (incident : Incident)
    (sp act uid aid : String) (now : Int)
    (roster : List Person) (storage : Option StorageState)
    (cands : List Person) (inc2 : Incident) (today : Int) :
    (get_user_workload (save_assignment st incident sp act uid aid now).1 uid =
        get_user_workload st uid + 1)
    ∧ (∀ v, v ≠ uid →
        get_user_workload (save_assignment st incident sp act uid aid now).1 v =
          get_user_workload st v)
    ∧ (∀ p ∈ find_candidates roster inc2 storage, p ∈ roster)
    ∧ ((calculate_scores inc2 cands storage today).map (fun c => c.person)).Perm
        cands := by
    refine ⟨?_, ?_, ?_, ?_⟩
    · simp [save_assignment, update_workload_tracking, get_user_workload,
        open_count, List.filter_append]
    · intro v hv
      have hne : (uid == v) = false := by
        simp only [beq_eq_false_iff_ne, ne_eq]
        exact fun hc => hv hc.symm
      simp [save_assignment, update_workload_tracking, get_user_workload,
        open_count, List.filter_append, hne]
    · intro p hp
      have sub1 : ∀ q : Person,
          q ∈ (if lowerChars inc2.subcategory.data = [] then roster
            else roster.filter (fun x =>
              matches_skill (lowerChars inc2.subcategory.data) x.skills_csv)) →
          q ∈ roster := by
        intro q hq
        by_cases hs : lowerChars inc2.subcategory.data = []
        · rw [if_pos hs] at hq
          exact hq
        · rw [if_neg hs] at hq
          exact (List.mem_filter.1 hq).1
      simp only [find_candidates] at hp
      cases storage with
      | none => exact sub1 p hp
      | some st' => exact sub1 p (List.mem_filter.1 hp).1
    · have h1 := (pandas_sort_desc_perm (fun c : ScoredCand => c.total_score)
        (cands.map (score_row inc2 storage today))).map (fun c => c.person)
      have h2 : (cands.map (score_row inc2 storage today)).map
          (fun c => c.person) = cands := by
        rw [List.map_map]
        have : ((fun c : ScoredCand => c.person) ∘ score_row inc2 storage today) =
            id := by
          funext p
          rfl
        rw [this, List.map_id]
      have h3 : ((cands.map (score_row inc2 storage today)).map
          (fun c => c.person)).Perm cands := by
        rw [h2]
      unfold calculate_scores
      exact h1.trans h3

/-- C10 witness: from the empty store, committing `A1` to `U1` gives
`U1` one open assignment and leaves `U2` at zero; a candidate returned
for a concrete roster is a roster row. -/
theorem save_assignment_frame_check :
    get_user_workload
        (save_assignment {} {} "User_U1" "Accept" "U1" "A1" 0).1 "U1" =
      get_user_workload ({} : StorageState) "U1" + 1
    ∧ get_user_workload
        (save_assignment {} {} "User_U1" "Accept" "U1" "A1" 0).1 "U2" =
      get_user_workload ({} : StorageState) "U2"
    ∧ (⟨"A", some "net", none, none, "No", some 5⟩ : Person) ∈
        [(⟨"A", some "net", none, none, "No", some 5⟩ : Person)] := by
  have h := save_assignment_frame {} {} "User_U1" "Accept" "U1" "A1" 0
    [⟨"A", some "net", none, none, "No", some 5⟩] none
    [⟨"A", some "net", none, none, "No", some 5⟩] { subcategory := "net" } 0
  exact ⟨h.1, h.2.1 "U2" (by decide), h.2.2.1 _ (by decide)⟩

/-- A string that starts with the check-mark prefix is never the
all-at-capacity message. -/
theorem avail_msg_head (s : String)
    (hh : s.data.head? = some '✅') :
    s ≠ "❌ No persons are free to assign. All team members are at max capacity." := by
  intro hc
  rw [hc] at hh
  exact absurd hh (by decide)

/-- C8: two tickets with *different* causes in the claim's taxonomy —
for `network` the only skilled person (A) is at capacity ("all at
capacity"), for `xyz` nobody has the skill ("no skill match") — get
the *identical* NoCandidates result: the availability-count message,
computed over the whole roster, distinguishes neither cause. -/
theorem no_candidates_same_message_two_causes :
    (recommend_assignees
        [⟨"A", some "network", none, none, "No", some 1⟩,
         ⟨"B", some "database", none, none, "No", some 1⟩]
        { subcategory := "network" }
        (some { workload := [⟨"A1", "A", "OPEN", none, 1⟩] }) none 3 0) =
      (recommend_assignees
        [⟨"A", some "network", none, none, "No", some 1⟩,
         ⟨"B", some "database", none, none, "No", some 1⟩]
        { subcategory := "xyz" }
        (some { workload := [⟨"A1", "A", "OPEN", none, 1⟩] }) none 3 0)
    ∧ (recommend_assignees
        [⟨"A", some "network", none, none, "No", some 1⟩,
         ⟨"B", some "database", none, none, "No", some 1⟩]
        { subcategory := "network" }
        (some { workload := [⟨"A1", "A", "OPEN", none, 1⟩] }) none 3 0).error_message =
      some "✅ 1 of 2 team members available for assignment."
    ∧ matches_skill "network".data (some "network") = true
    ∧ is_user_available { workload := [⟨"A1", "A", "OPEN", none, 1⟩] }
        [⟨"A", some "network", none, none, "No", some 1⟩,
         ⟨"B", some "database", none, none, "No", some 1⟩] "A" = false
    ∧ matches_skill "xyz".data (some "network") = false
    ∧ matches_skill "xyz".data (some "database") = false := by
  refine ⟨by decide, by decide, by decide, by decide, by decide, by decide⟩

/-- C8 (amended): when no candidate survives the filters the agent
returns a non-fatal NoCandidates dictionary (an error message, never
an exception) carrying the matcher's availability message; that
message says "all team members are at max capacity" exactly when *no
roster member at all* has capacity, and otherwise reports the
whole-roster availability headcount — it does not name "no skill
match" as a cause. -/
theorem no_candidates_diagnostic (roster : List Person) (incident : Incident)
    (st : StorageState)
    (reasoner : Option (Incident → List ScoredCand → Recs)) (top_k : Nat)
    (today : Int)
    (h : find_candidates roster incident (some st) = []) :
    recommend_assignees roster incident (some st) reasoner top_k today =
      RecResult.no_candidates (get_availability_message roster (some st))
        "No candidates available based on workload capacity or other constraints."
    ∧ ((get_availability_message roster (some st) =
        "❌ No persons are free to assign. All team members are at max capacity.")
      ↔ ∀ p ∈ roster, is_user_available st roster p.user_id = false) := by
  constructor
  · simp [recommend_assignees, h, no_candidates_response]
  · simp only [get_availability_message]
    by_cases hz : (roster.filter (fun p =>
        is_user_available st roster p.user_id)).length = 0
    · rw [if_pos hz]
      constructor
      · intro _ p hp
        have hnil := List.length_eq_zero.1 hz
        have := List.filter_eq_nil_iff.1 hnil p hp
        simpa using this
      · intro _
        rfl
    · rw [if_neg hz]
      constructor
      · intro hmsg
        exact absurd hmsg (avail_msg_head _ rfl)
      · intro hall
        exact absurd (List.length_eq_zero.2 (List.filter_eq_nil_iff.2
          (fun p hp => by simp [hall p hp]))) hz

/-- C8 witness: a one-person roster at capacity with a non-matching
ticket yields the non-fatal NoCandidates result with the
all-at-capacity message. -/
theorem no_candidates_diagnostic_check :
    recommend_assignees [⟨"A", some "network", none, none, "No", some 1⟩]
        { subcategory := "database" }
        (some { workload := [⟨"A1", "A", "OPEN", none, 1⟩] }) none 3 0 =
      RecResult.no_candidates
        "❌ No persons are free to assign. All team members are at max capacity."
        "No candidates available based on workload capacity or other constraints." := by
  have h := no_candidates_diagnostic
    [⟨"A", some "network", none, none, "No", some 1⟩]
    { subcategory := "database" }
    { workload := [⟨"A1", "A", "OPEN", none, 1⟩] } none 3 0 (by decide)
  have hm := h.2.mpr (by decide)
  exact h.1.trans (by rw [hm])
